import Mathlib

/-!
Verification of the query-processing pipeline and vector-index gateway of
an S3-Vectors-backed RAG service.  The definitions below are a shallow
embedding of the Python source: the result-processing loop of
S3VectorClient.query_vectors, the batching/retry loop of
S3VectorClient.upsert_vectors, the answer parsing of
RAGService.generate_answer, the orchestration of RAGService.process_query,
and the request validation of the /query endpoint (app.QueryRequest).
Numbers are modelled as rationals; remote calls are modelled by oracle
parameters describing the backend behaviour.
-/

set_option maxRecDepth 20000

namespace S3VectorsRAG

/-- Metadata mapping stored with a vector.  The fields the query path
reads are modelled explicitly; a field that may be absent from the
mapping is an Option (metadata.get with a default in the source). -/
structure Metadata where
  source : Option String := none
  chunk_index : Option Nat := none
  source_text : Option String := none
deriving Repr, DecidableEq

/-- A vector entry as returned by the index backend to query_vectors:
key, optional distance (vector.get of the distance field defaults to 0
when the field is absent) and metadata. -/
structure RawVector where
  key : String
  distance : Option ℚ := none
  metadata : Metadata := {}
deriving Repr, DecidableEq

/-- A Match produced by query_vectors: id, similarity score, metadata. -/
structure Match where
  id : String
  score : ℚ
  metadata : Metadata
deriving Repr, DecidableEq

/-- Distance-to-similarity conversion of query_vectors
(s3_vector_client.py line 214): similarity_score = 1 - (distance / 2). -/
def cosineSimilarity (distance : ℚ) : ℚ := 1 - distance / 2

/-- Result-processing loop of query_vectors (s3_vector_client.py lines
209-222): for each returned vector, default a missing distance to 0,
convert it to a similarity score, and append a Match only when the score
reaches the similarity threshold. -/
def processQueryResults (vectors : List RawVector) (similarity_threshold : ℚ) :
    List Match :=
  match vectors with
  | [] => []
  | vector :: rest =>
    let distance := vector.distance.getD 0
    let similarity_score := cosineSimilarity distance
    if similarity_threshold ≤ similarity_score then
      { id := vector.key, score := similarity_score, metadata := vector.metadata }
        :: processQueryResults rest similarity_threshold
    else
      processQueryResults rest similarity_threshold

/-- Rounding a rational to a fixed number of decimal digits, modelling
the round(x, ndigits) calls of the source. -/
def roundTo (ndigits : Nat) (x : ℚ) : ℚ :=
  ((round (x * 10 ^ ndigits) : ℤ) : ℚ) / 10 ^ ndigits

/-- The Source projection of a Match built by process_query
(rag_service.py lines 356-361). -/
structure Source where
  source : String
  chunk_index : Nat
  similarity_score : ℚ
  text_preview : String
deriving Repr, DecidableEq

/-- Building one Source from a Match (rag_service.py lines 352-361):
source and chunk_index come from metadata with defaults, the similarity
score is rounded to 4 decimal places, and the text preview is the chunk
text truncated to 200 characters plus an ellipsis when longer. -/
def buildSource (m : Match) : Source :=
  let chunk_text := m.metadata.source_text.getD ""
  { source := m.metadata.source.getD "Unknown"
    chunk_index := m.metadata.chunk_index.getD 0
    similarity_score := roundTo 4 m.score
    text_preview :=
      if chunk_text.length > 200 then chunk_text.take 200 ++ "..." else chunk_text }

/-- Outcome of one put_vectors call of the vector index backend: success,
a rate-limit ClientError (code TooManyRequestsException), or any other
ClientError. -/
inductive PutOutcome
  | success
  | rateLimited
  | otherError
deriving Repr, DecidableEq

/-- Constant max_retries of S3VectorClient (s3_vector_client.py line 23). -/
def max_retries : Nat := 3

/-- Constant retry_delay in seconds (s3_vector_client.py line 24). -/
def retry_delay : ℚ := 1

/-- Observable behaviour of the retry loop run for one batch: whether the
batch was eventually uploaded, the sleep delays performed (seconds, in
order), and the number of put_vectors calls issued. -/
structure BatchRun where
  success : Bool
  delays : List ℚ
  calls : Nat
deriving Repr, DecidableEq

/-- The per-batch retry loop of upsert_vectors (s3_vector_client.py lines
77-118): the body of for attempt in range(max_retries), given the current
attempt index and the number of loop iterations still available.
behavior gives the backend outcome of each attempt.  On success the loop
breaks; on a rate-limit error strictly before the last attempt it sleeps
retry_delay * 2 ^ attempt and retries; a rate-limit error on the last
attempt, or any other client error, is raised (success = false). -/
def runBatchLoop (behavior : Nat → PutOutcome) : Nat → Nat → BatchRun
  | _, 0 => ⟨false, [], 0⟩
  | attempt, remaining + 1 =>
    match behavior attempt with
    | .success => ⟨true, [], 1⟩
    | .rateLimited =>
      if attempt < max_retries - 1 then
        let rest := runBatchLoop behavior (attempt + 1) remaining
        ⟨rest.success, retry_delay * 2 ^ attempt :: rest.delays, rest.calls + 1⟩
      else ⟨false, [], 1⟩
    | .otherError => ⟨false, [], 1⟩

/-- The full retry loop for one batch, started at a given attempt index:
range(max_retries) leaves max_retries - attempt iterations. -/
def runBatchFrom (behavior : Nat → PutOutcome) (attempt : Nat) : BatchRun :=
  runBatchLoop behavior attempt (max_retries - attempt)

/-- Split a list into consecutive batches of n + 1 elements each (the
final batch may be shorter), modelling the slicing loop
vectors[i:i+batch_size] of the source with batch_size = n + 1.  fuel
bounds the number of batches produced; every step consumes at least one
element, so any fuel at least the length of the list yields the full
batching. -/
def chunksOfSuccFuel (n : Nat) : Nat → List α → List (List α)
  | _, [] => []
  | 0, _ :: _ => []
  | fuel + 1, x :: xs => (x :: xs.take n) :: chunksOfSuccFuel n fuel (xs.drop n)

/-- The batches of at most 500 records uploaded by upsert_vectors
(s3_vector_client.py lines 66-74, batch_size = 500). -/
def upsertBatches (vectors : List α) : List (List α) :=
  chunksOfSuccFuel 499 vectors.length vectors

/-- Observable behaviour of one upsert_vectors call: ok is false when a
ClientError was raised out of the call; total_uploaded is the counter
value accumulated before return or failure; delays and put_calls
aggregate over all batches. -/
structure UpsertRun where
  ok : Bool
  total_uploaded : Nat
  delays : List ℚ
  put_calls : Nat
deriving Repr, DecidableEq

/-- The batch loop of upsert_vectors over the prepared batches, with
batch index i.  behavior i gives the backend outcome of each attempt for
batch i.  A batch whose retry loop fails raises, abandoning the remaining
batches. -/
def runBatches (behavior : Nat → Nat → PutOutcome) :
    Nat → List (List α) → UpsertRun
  | _, [] => ⟨true, 0, [], 0⟩
  | i, batch :: rest =>
    let r := runBatchFrom (behavior i) 0
    if r.success then
      let restRun := runBatches behavior (i + 1) rest
      ⟨restRun.ok, batch.length + restRun.total_uploaded,
        r.delays ++ restRun.delays, r.calls + restRun.put_calls⟩
    else
      ⟨false, 0, r.delays, r.calls⟩

/-- upsert_vectors (s3_vector_client.py lines 38-123): batch the input
records into groups of at most 500 and upload each batch under the retry
loop; when every batch succeeds the returned count is the total number of
records uploaded. -/
def upsert_vectors (behavior : Nat → Nat → PutOutcome) (vectors : List α) :
    UpsertRun :=
  runBatches behavior 0 (upsertBatches vectors)

/-- One content block of the generation backend response; the text field
may be absent. -/
structure ContentBlock where
  text : Option String := none
deriving Repr, DecidableEq

/-- Token usage counters of the generation backend response. -/
structure Usage where
  input_tokens : Nat := 0
  output_tokens : Nat := 0
deriving Repr, DecidableEq

/-- Body of a generation backend response: the content key may be absent
(none) or present with a possibly empty block list; stop_reason and usage
are optional. -/
structure ResponseBody where
  content : Option (List ContentBlock) := none
  stop_reason : Option String := none
  usage : Option Usage := none
deriving Repr, DecidableEq

/-- Outcome of one invoke_model call against the generation backend:
either a ClientError or a parsed response body. -/
inductive InvokeResult
  | clientError
  | ok (body : ResponseBody)
deriving Repr, DecidableEq

/-- Error taxonomy of the answer generator: the upstream invocation
failed (ClientError re-raised, rag_service.py line 268), or the backend
responded but the expected content structure is absent (the ValueError of
line 266 when content is missing or empty, and the KeyError when the
first block has no text field). -/
inductive GenError
  | modelInvocationError
  | malformedResponseError
deriving Repr, DecidableEq

/-- Answer parsing of generate_answer (rag_service.py lines 206-276): on
upstream failure the error propagates; otherwise the first text content
block is stripped and returned, and a response without it fails as
malformed.  Usage counters are only forwarded to telemetry and their
absence is not an error. -/
def generate_answer (r : InvokeResult) : Except GenError String :=
  match r with
  | .clientError => .error .modelInvocationError
  | .ok body =>
    match body.content with
    | some (block :: _) =>
      match block.text with
      | some t => .ok t.trim
      | none => .error .malformedResponseError
    | some [] => .error .malformedResponseError
    | none => .error .malformedResponseError

/-- The first text content block of a generation backend response body:
the value read by response_body content index 0 text when it exists. -/
def firstTextBlock (body : ResponseBody) : Option String :=
  match body.content with
  | some (block :: _) => block.text
  | _ => none

/-- The settings fields process_query reads as defaults (config
Settings.top_k and Settings.similarity_threshold). -/
structure Settings where
  top_k : Int
  similarity_threshold : ℚ
deriving Repr, DecidableEq

/-- Python or-defaulting of rag_service.py line 290: max_chunks =
max_chunks or settings.top_k.  A missing value (None) and the falsy
integer 0 both resolve to the settings default. -/
def resolveMaxChunks (requested : Option Int) (settings : Settings) : Int :=
  match requested with
  | none => settings.top_k
  | some v => if v = 0 then settings.top_k else v

/-- Python or-defaulting of rag_service.py line 291: similarity_threshold
= similarity_threshold or settings.similarity_threshold.  A missing value
(None) and the falsy float 0.0 both resolve to the settings default. -/
def resolveThreshold (requested : Option ℚ) (settings : Settings) : ℚ :=
  match requested with
  | none => settings.similarity_threshold
  | some v => if v = 0 then settings.similarity_threshold else v

/-- The context lines built by process_query (rag_service.py lines
352-354), one numbered block per match. -/
def contextParts (similar_chunks : List Match) : List String :=
  similar_chunks.enum.map
    (fun p => "[Source " ++ toString (p.1 + 1) ++ "]: "
      ++ (p.2.metadata.source_text.getD ""))

/-- Answer text of the zero-results branch (rag_service.py line 336). -/
def noResultsAnswer : String :=
  "I couldn\x27t find any relevant information to answer your question."

/-- Result of one process_query call.  generation_calls instruments the
model: the number of Answer Generator invocations performed on the path
taken. -/
structure QueryOutcome where
  answer : String
  query : String
  sources : List Source
  processing_time_ms : ℚ
  chunks_found : Nat
  generation_calls : Nat
deriving Repr, DecidableEq

/-- process_query (rag_service.py lines 278-419).  search models
search_similar_chunks as a function of the resolved max_chunks and
threshold; genAnswer models generate_answer on (query, context);
elapsed_ms is the wall time elapsed since the start of the call when the
result is finalized, which the source rounds to 2 decimal places.  When
retrieval returns no matches the call short-circuits with the fixed
answer, empty sources, zero chunks and no generation call; otherwise
sources and the numbered context are built from the matches in retrieval
order and the generator is invoked once. -/
def process_query (query : String) (max_chunks : Option Int)
    (similarity_threshold : Option ℚ) (settings : Settings)
    (search : Int → ℚ → List Match) (genAnswer : String → String → String)
    (elapsed_ms : ℚ) : QueryOutcome :=
  let mc := resolveMaxChunks max_chunks settings
  let th := resolveThreshold similarity_threshold settings
  let similar_chunks := search mc th
  if similar_chunks.isEmpty then
    { answer := noResultsAnswer
      query := query
      sources := []
      processing_time_ms := roundTo 2 elapsed_ms
      chunks_found := 0
      generation_calls := 0 }
  else
    let sources := similar_chunks.map buildSource
    let context := String.intercalate "\n\n" (contextParts similar_chunks)
    { answer := genAnswer query context
      query := query
      sources := sources
      processing_time_ms := roundTo 2 elapsed_ms
      chunks_found := similar_chunks.length
      generation_calls := 1 }

/-- A concrete Match holding a 250-character chunk text, used as a
witness input. -/
def sampleLongMatch : Match :=
  { id := "k", score := 1 / 3,
    metadata := { source_text := some (String.mk (List.replicate 250 'a')) } }

/-- Pydantic validation of QueryRequest (app.py lines 14-18): query must
have length in [1, 1000], max_chunks when present must lie in [1, 20],
similarity_threshold when present must lie in [0, 1]. -/
def validQueryRequest (query : String) (max_chunks : Option Int)
    (similarity_threshold : Option ℚ) : Bool :=
  decide (1 ≤ query.length) && decide (query.length ≤ 1000) &&
  (match max_chunks with
   | none => true
   | some v => decide (1 ≤ v) && decide (v ≤ 20)) &&
  (match similarity_threshold with
   | none => true
   | some t => decide (0 ≤ t) && decide (t ≤ 1))

/-- Outcome of the /query endpoint: a pydantic validation error (422 bad
request) or the orchestrator result. -/
inductive BoundaryResult
  | validationError
  | ok (r : QueryOutcome)
deriving Repr, DecidableEq

/-- The /query endpoint (app.py lines 88-100): the request model is
validated before process_query runs.  The second component counts calls
to the Embedding Generator: process_query embeds the query exactly once
when it runs (rag_service.py line 311), and a rejected request never
reaches it. -/
def handleQuery (query : String) (max_chunks : Option Int)
    (similarity_threshold : Option ℚ) (settings : Settings)
    (search : Int → ℚ → List Match) (genAnswer : String → String → String)
    (elapsed_ms : ℚ) : BoundaryResult × Nat :=
  if validQueryRequest query max_chunks similarity_threshold then
    (.ok (process_query query max_chunks similarity_threshold settings
      search genAnswer elapsed_ms), 1)
  else
    (.validationError, 0)

theorem mem_processQueryResults_score (vectors : List RawVector) (t : ℚ) :
    ∀ m ∈ processQueryResults vectors t, t ≤ m.score := by
  induction vectors with
  | nil => intro m hm; simp [processQueryResults] at hm
  | cons v rest ih =>
    intro m hm
    rw [processQueryResults] at hm
    by_cases hc : t ≤ cosineSimilarity (v.distance.getD 0)
    · rw [if_pos hc] at hm
      rcases List.mem_cons.mp hm with h | h
      · subst h; exact hc
      · exact ih m h
    · rw [if_neg hc] at hm
      exact ih m hm

theorem processQueryResults_mem_of_mem (vectors : List RawVector) (t : ℚ)
    (v : RawVector) (hv : v ∈ vectors)
    (hc : t ≤ cosineSimilarity (v.distance.getD 0)) :
    ({ id := v.key, score := cosineSimilarity (v.distance.getD 0),
       metadata := v.metadata } : Match) ∈ processQueryResults vectors t := by
  induction vectors with
  | nil => cases hv
  | cons w rest ih =>
    rw [processQueryResults]
    rcases List.mem_cons.mp hv with h | h
    · subst h
      rw [if_pos hc]
      exact List.mem_cons_self _ _
    · by_cases hw : t ≤ cosineSimilarity (w.distance.getD 0)
      · rw [if_pos hw]
        exact List.mem_cons_of_mem _ (ih h)
      · rw [if_neg hw]
        exact ih h

/-- Claim C1: for every query with threshold in [0, 1], every Match in the
sequence returned by the query result-processing loop satisfies
score ≥ threshold; no result whose similarity is below the threshold is
included. -/
theorem query_results_respect_threshold (vectors : List RawVector) (t : ℚ)
    (h0 : 0 ≤ t) (h1 : t ≤ 1) :
    ∀ m ∈ processQueryResults vectors t, t ≤ m.score :=
  mem_processQueryResults_score vectors t

/-- Witness for C1 at a concrete threshold and vector list. -/
theorem query_results_respect_threshold_witness :
    (0 : ℚ) ≤ 1 / 2 ∧ (1 / 2 : ℚ) ≤ 1 ∧
    ∀ m ∈ processQueryResults
      [{ key := "a", distance := some 1 }, { key := "b", distance := some 2 }]
      (1 / 2), (1 / 2 : ℚ) ≤ m.score :=
  ⟨by norm_num, by norm_num,
    query_results_respect_threshold _ _ (by norm_num) (by norm_num)⟩

/-- Claim C2: for every cosine distance d in [0, 2] the computed
similarity 1 - d/2 lies in [0, 1]; d = 0 gives similarity 1 and d = 2
gives similarity 0. -/
theorem similarity_in_unit_interval (d : ℚ) (h0 : 0 ≤ d) (h2 : d ≤ 2) :
    (0 ≤ cosineSimilarity d ∧ cosineSimilarity d ≤ 1) ∧
    cosineSimilarity 0 = 1 ∧ cosineSimilarity 2 = 0 := by
  refine ⟨⟨?_, ?_⟩, by norm_num [cosineSimilarity], by norm_num [cosineSimilarity]⟩ <;>
    simp only [cosineSimilarity] <;> linarith

/-- Witness for C2 at d = 1/2. -/
theorem similarity_in_unit_interval_witness :
    (0 : ℚ) ≤ 1 / 2 ∧ (1 / 2 : ℚ) ≤ 2 ∧
    ((0 ≤ cosineSimilarity (1 / 2) ∧ cosineSimilarity (1 / 2) ≤ 1) ∧
      cosineSimilarity 0 = 1 ∧ cosineSimilarity 2 = 0) :=
  ⟨by norm_num, by norm_num,
    similarity_in_unit_interval (1 / 2) (by norm_num) (by norm_num)⟩

/-- Claim C10: a vector returned by the backend without a distance field
is treated as distance 0, gets similarity exactly 1, and is included in
the returned matches for every threshold at most 1. -/
theorem missing_distance_gets_full_score (vectors : List RawVector) (t : ℚ)
    (ht : t ≤ 1) (v : RawVector) (hv : v ∈ vectors) (hd : v.distance = none) :
    cosineSimilarity (v.distance.getD 0) = 1 ∧
    ({ id := v.key, score := 1, metadata := v.metadata } : Match) ∈
      processQueryResults vectors t := by
  have hsim : cosineSimilarity (v.distance.getD 0) = 1 := by
    rw [hd]; norm_num [cosineSimilarity, Option.getD]
  refine ⟨hsim, ?_⟩
  have := processQueryResults_mem_of_mem vectors t v hv (by rw [hsim]; exact ht)
  rwa [hsim] at this

/-- Witness for C10 at a concrete vector list containing a vector with no
distance field. -/
theorem missing_distance_gets_full_score_witness :
    (1 / 2 : ℚ) ≤ 1 ∧
    ({ key := "b", distance := none, metadata := {} } : RawVector) ∈
      [({ key := "a", distance := some 1, metadata := {} } : RawVector),
       { key := "b", distance := none, metadata := {} }] ∧
    ({ id := "b", score := 1, metadata := {} } : Match) ∈
      processQueryResults
        [{ key := "a", distance := some 1, metadata := {} },
         { key := "b", distance := none, metadata := {} }] (1 / 2) :=
  ⟨by norm_num, by simp,
    (missing_distance_gets_full_score
      [{ key := "a", distance := some 1, metadata := {} },
       { key := "b", distance := none, metadata := {} }] (1 / 2) (by norm_num)
      { key := "b", distance := none, metadata := {} } (by simp) rfl).2⟩

theorem string_take_length (s : String) (n : Nat) :
    (s.take n).length = min n s.length := by
  show (s.take n).data.length = _
  rw [String.data_take, List.length_take]
  rfl

/-- Claim C9: a Source built from a Match carries the similarity score
rounded to 4 decimal places, and a text preview equal to the chunk text
when its length is at most 200 characters and otherwise to its first 200
characters followed by an ellipsis; a 250-character chunk text yields a
preview of exactly 203 characters. -/
theorem source_projection_preview (m : Match) :
    (buildSource m).similarity_score = roundTo 4 m.score ∧
    ((m.metadata.source_text.getD "").length ≤ 200 →
      (buildSource m).text_preview = m.metadata.source_text.getD "") ∧
    (200 < (m.metadata.source_text.getD "").length →
      (buildSource m).text_preview =
        (m.metadata.source_text.getD "").take 200 ++ "...") ∧
    ((m.metadata.source_text.getD "").length = 250 →
      (buildSource m).text_preview.length = 203) := by
  refine ⟨rfl, ?_, ?_, ?_⟩
  · intro hle
    simp only [buildSource]
    rw [if_neg (by omega)]
  · intro hgt
    simp only [buildSource]
    rw [if_pos (by omega)]
  · intro h250
    simp only [buildSource]
    rw [if_pos (by omega), String.length_append, string_take_length, h250]
    rfl

/-- Witness for C9 at a Match holding a 250-character chunk text. -/
theorem source_projection_preview_witness :
    (sampleLongMatch.metadata.source_text.getD "").length = 250 ∧
    (buildSource sampleLongMatch).text_preview.length = 203 := by
  refine ⟨by decide, ?_⟩
  exact (source_projection_preview sampleLongMatch).2.2.2 (by decide)

theorem chunksOfSuccFuel_nil (n fuel : Nat) :
    chunksOfSuccFuel n fuel ([] : List α) = [] := by
  cases fuel <;> rfl

theorem runBatchLoop_success (behavior : Nat → PutOutcome) (attempt r : Nat)
    (hb : behavior attempt = .success) :
    runBatchLoop behavior attempt (r + 1) = ⟨true, [], 1⟩ := by
  rw [runBatchLoop, hb]

theorem runBatchLoop_rateLimited_retry (behavior : Nat → PutOutcome)
    (attempt r : Nat) (ha : attempt < max_retries - 1)
    (hb : behavior attempt = .rateLimited) :
    runBatchLoop behavior attempt (r + 1) =
      ⟨(runBatchLoop behavior (attempt + 1) r).success,
        retry_delay * 2 ^ attempt
          :: (runBatchLoop behavior (attempt + 1) r).delays,
        (runBatchLoop behavior (attempt + 1) r).calls + 1⟩ := by
  rw [runBatchLoop, hb, if_pos ha]

theorem runBatchLoop_rateLimited_last (behavior : Nat → PutOutcome)
    (attempt r : Nat) (ha : ¬attempt < max_retries - 1)
    (hb : behavior attempt = .rateLimited) :
    runBatchLoop behavior attempt (r + 1) = ⟨false, [], 1⟩ := by
  rw [runBatchLoop, hb, if_neg ha]

theorem runBatchLoop_otherError (behavior : Nat → PutOutcome) (attempt r : Nat)
    (hb : behavior attempt = .otherError) :
    runBatchLoop behavior attempt (r + 1) = ⟨false, [], 1⟩ := by
  rw [runBatchLoop, hb]

/-- Claim C4: a batch hit by rate limiting is retried up to 3 attempts
total with backoff delays retry_delay * 2 ^ attempt; rate-limit errors on
the first two attempts followed by success give a successful batch with
exactly the two delays 1s and 2s (and full upsert success on a
single-batch input); a non-rate-limit error fails at once without
retrying, and three rate-limit errors exhaust the attempts and fail. -/
theorem upsert_rate_limit_retry (behavior : Nat → PutOutcome) :
    (behavior 0 = .rateLimited → behavior 1 = .rateLimited →
      behavior 2 = .success →
      runBatchFrom behavior 0 = ⟨true, [1, 2], 3⟩) ∧
    (behavior 0 = .otherError →
      runBatchFrom behavior 0 = ⟨false, [], 1⟩) ∧
    ((∀ a, behavior a = .rateLimited) →
      runBatchFrom behavior 0 = ⟨false, [1, 2], 3⟩) ∧
    (∀ (v : List RawVector), v ≠ [] → v.length ≤ 500 →
      behavior 0 = .rateLimited → behavior 1 = .rateLimited →
      behavior 2 = .success →
      upsert_vectors (fun _ => behavior) v = ⟨true, v.length, [1, 2], 3⟩) := by
  have delay0 : retry_delay * 2 ^ 0 = 1 := by norm_num [retry_delay]
  have delay1 : retry_delay * 2 ^ 1 = 2 := by norm_num [retry_delay]
  have main : behavior 0 = .rateLimited → behavior 1 = .rateLimited →
      behavior 2 = .success → runBatchFrom behavior 0 = ⟨true, [1, 2], 3⟩ := by
    intro h0 h1 h2
    have e2 := runBatchLoop_success behavior 2 0 h2
    have e1 := runBatchLoop_rateLimited_retry behavior 1 1
      (by norm_num [max_retries]) h1
    have e0 := runBatchLoop_rateLimited_retry behavior 0 2
      (by norm_num [max_retries]) h0
    rw [e2] at e1
    rw [runBatchFrom, show max_retries - 0 = 2 + 1 from rfl, e0, e1,
      delay0, delay1]
  refine ⟨main, ?_, ?_, ?_⟩
  · intro h0
    rw [runBatchFrom, show max_retries - 0 = 2 + 1 from rfl]
    exact runBatchLoop_otherError behavior 0 2 h0
  · intro hall
    have e2 := runBatchLoop_rateLimited_last behavior 2 0
      (by norm_num [max_retries]) (hall 2)
    have e1 := runBatchLoop_rateLimited_retry behavior 1 1
      (by norm_num [max_retries]) (hall 1)
    have e0 := runBatchLoop_rateLimited_retry behavior 0 2
      (by norm_num [max_retries]) (hall 0)
    rw [e2] at e1
    rw [runBatchFrom, show max_retries - 0 = 2 + 1 from rfl, e0, e1,
      delay0, delay1]
  · intro v hne hlen h0 h1 h2
    have hbatch : upsertBatches v = [v] := by
      cases v with
      | nil => exact absurd rfl hne
      | cons x xs =>
        rw [upsertBatches]
        rw [show (x :: xs).length = xs.length + 1 from rfl, chunksOfSuccFuel]
        have htake : xs.take 499 = xs :=
          List.take_of_length_le (by simp at hlen; omega)
        have hdrop : xs.drop 499 = [] :=
          List.drop_eq_nil_of_le (by simp at hlen; omega)
        rw [htake, hdrop, chunksOfSuccFuel_nil]
    rw [upsert_vectors, hbatch, runBatches]
    simp only [main h0 h1 h2]
    rw [runBatches]
    rfl

/-- Witness for C4, applying the theorem to the three concrete backend
behaviours: rate-limited twice then success, an immediate non-rate-limit
error, and rate-limited on every attempt. -/
theorem upsert_rate_limit_retry_witness :
    runBatchFrom (fun a => if a < 2 then .rateLimited else .success) 0 =
      ⟨true, [1, 2], 3⟩ ∧
    runBatchFrom (fun _ => .otherError) 0 = ⟨false, [], 1⟩ ∧
    runBatchFrom (fun _ => .rateLimited) 0 = ⟨false, [1, 2], 3⟩ ∧
    upsert_vectors (fun _ a => if a < 2 then .rateLimited else .success)
      [({ key := "a" } : RawVector)] = ⟨true, 1, [1, 2], 3⟩ :=
  ⟨(upsert_rate_limit_retry _).1 rfl rfl rfl,
    (upsert_rate_limit_retry _).2.1 rfl,
    (upsert_rate_limit_retry _).2.2.1 (fun _ => rfl),
    (upsert_rate_limit_retry _).2.2.2 [{ key := "a" }] (by simp)
      (by simp) rfl rfl rfl⟩

theorem chunksOfSuccFuel_sum_length (n : Nat) :
    ∀ (fuel : Nat) (l : List α), l.length ≤ fuel →
      ((chunksOfSuccFuel n fuel l).map List.length).sum = l.length := by
  intro fuel
  induction fuel with
  | zero =>
    intro l hl
    cases l with
    | nil => rfl
    | cons x xs => simp at hl
  | succ f ih =>
    intro l hl
    cases l with
    | nil => rfl
    | cons x xs =>
      rw [chunksOfSuccFuel]
      simp only [List.map_cons, List.sum_cons, List.length_cons]
      rw [ih (xs.drop n) (by simp only [List.length_drop]; simp at hl; omega)]
      simp only [List.length_cons, List.length_take, List.length_drop]
      omega

theorem chunksOfSuccFuel_batch_le (n : Nat) :
    ∀ (fuel : Nat) (l : List α) (b : List α),
      b ∈ chunksOfSuccFuel n fuel l → b.length ≤ n + 1 := by
  intro fuel
  induction fuel with
  | zero =>
    intro l b hb
    cases l with
    | nil => cases hb
    | cons x xs => cases hb
  | succ f ih =>
    intro l b hb
    cases l with
    | nil => cases hb
    | cons x xs =>
      rw [chunksOfSuccFuel] at hb
      rcases List.mem_cons.mp hb with h | h
      · subst h
        simp only [List.length_cons, List.length_take]
        omega
      · exact ih (xs.drop n) b h

theorem runBatches_all_success (behavior : Nat → Nat → PutOutcome)
    (hb : ∀ i a, behavior i a = .success) :
    ∀ (bs : List (List α)) (i : Nat),
      runBatches behavior i bs =
        ⟨true, (bs.map List.length).sum, [], bs.length⟩ := by
  intro bs
  induction bs with
  | nil => intro i; rfl
  | cons b rest ih =>
    intro i
    rw [runBatches]
    have hr : runBatchFrom (behavior i) 0 = ⟨true, [], 1⟩ := by
      rw [runBatchFrom, show max_retries - 0 = 2 + 1 from rfl]
      exact runBatchLoop_success (behavior i) 0 2 (hb i 0)
    simp only [hr, ih (i + 1)]
    rw [if_pos trivial]
    simp [List.length_cons, Nat.add_comm]

/-- Claim C5: upsert splits its input into successive batches of at most
500 records; when every batch succeeds the returned count equals the
number of input records and one put call is issued per batch; 1200
records form exactly the 3 batches of sizes 500, 500 and 200, so their
upsert issues exactly 3 put calls and reports 1200 uploaded. -/
theorem upsert_batching (behavior : Nat → Nat → PutOutcome)
    (v : List RawVector) (hb : ∀ i a, behavior i a = .success) :
    (∀ b ∈ upsertBatches v, b.length ≤ 500) ∧
    upsert_vectors behavior v =
      ⟨true, v.length, [], (upsertBatches v).length⟩ ∧
    (upsertBatches (List.replicate 1200 ())).map List.length =
      [500, 500, 200] ∧
    upsert_vectors (fun _ _ => .success) (List.replicate 1200 ()) =
      ⟨true, 1200, [], 3⟩ := by
  refine ⟨?_, ?_, by rfl, by rfl⟩
  · intro b hbmem
    exact chunksOfSuccFuel_batch_le 499 v.length v b hbmem
  · rw [upsert_vectors, runBatches_all_success behavior hb]
    rw [show upsertBatches v = chunksOfSuccFuel 499 v.length v from rfl]
    rw [chunksOfSuccFuel_sum_length 499 v.length v (Nat.le_refl _)]

/-- Witness for C5 with the always-successful backend on 1200 records. -/
theorem upsert_batching_witness :
    (∀ b ∈ upsertBatches (List.replicate 1200 ({ key := "a" } : RawVector)),
      b.length ≤ 500) ∧
    upsert_vectors (fun _ _ => .success)
        (List.replicate 1200 ({ key := "a" } : RawVector)) =
      ⟨true, (List.replicate 1200 ({ key := "a" } : RawVector)).length, [],
        (upsertBatches (List.replicate 1200 ({ key := "a" } : RawVector))).length⟩ ∧
    (upsertBatches (List.replicate 1200 ())).map List.length =
      [500, 500, 200] ∧
    upsert_vectors (fun _ _ => .success) (List.replicate 1200 ()) =
      ⟨true, 1200, [], 3⟩ :=
  upsert_batching (fun _ _ => .success)
    (List.replicate 1200 { key := "a" }) (fun _ _ => rfl)

/-- Claim C3: when retrieval returns zero matches, process_query
short-circuits with the fixed no-results answer, an empty source list,
chunks_found 0 and processing_time_ms equal to the wall time elapsed
since the start of the call (rounded to 2 decimal places as the source
does), and the Answer Generator is never invoked on that path. -/
theorem process_query_no_results (query : String) (max_chunks : Option Int)
    (similarity_threshold : Option ℚ) (settings : Settings)
    (search : Int → ℚ → List Match) (genAnswer : String → String → String)
    (elapsed_ms : ℚ)
    (hsearch : search (resolveMaxChunks max_chunks settings)
      (resolveThreshold similarity_threshold settings) = []) :
    process_query query max_chunks similarity_threshold settings search
        genAnswer elapsed_ms =
      { answer := noResultsAnswer, query := query, sources := [],
        processing_time_ms := roundTo 2 elapsed_ms, chunks_found := 0,
        generation_calls := 0 } := by
  rw [process_query]
  simp only [hsearch, List.isEmpty_nil, if_true]

/-- Witness for C3 with a retrieval oracle returning no matches. -/
theorem process_query_no_results_witness :
    process_query "q" none none ⟨5, 7 / 10⟩ (fun _ _ => [])
        (fun _ _ => "ans") 3 =
      { answer := noResultsAnswer, query := "q", sources := [],
        processing_time_ms := roundTo 2 3, chunks_found := 0,
        generation_calls := 0 } :=
  process_query_no_results "q" none none ⟨5, 7 / 10⟩ (fun _ _ => [])
    (fun _ _ => "ans") 3 rfl

/-- Claim C6: process_query resolves its parameters by Python
or-defaulting: an absent max_chunks or similarity_threshold, and equally
a falsy supplied value (0 or 0.0), resolves to the settings default,
while any non-zero supplied value is used; consequently process_query
behaves identically on zero-valued and on absent parameters. -/
theorem process_query_or_defaulting (settings : Settings) :
    (resolveMaxChunks none settings = settings.top_k ∧
      resolveMaxChunks (some 0) settings = settings.top_k ∧
      ∀ v : Int, v ≠ 0 → resolveMaxChunks (some v) settings = v) ∧
    (resolveThreshold none settings = settings.similarity_threshold ∧
      resolveThreshold (some 0) settings = settings.similarity_threshold ∧
      ∀ q : ℚ, q ≠ 0 → resolveThreshold (some q) settings = q) ∧
    (∀ (query : String) (search : Int → ℚ → List Match)
        (genAnswer : String → String → String) (elapsed_ms : ℚ),
      process_query query (some 0) (some 0) settings search genAnswer
          elapsed_ms =
        process_query query none none settings search genAnswer
          elapsed_ms) := by
  refine ⟨⟨rfl, ?_, ?_⟩, ⟨rfl, ?_, ?_⟩, ?_⟩
  · simp [resolveMaxChunks]
  · intro v hv; simp [resolveMaxChunks, hv]
  · simp [resolveThreshold]
  · intro q hq; simp [resolveThreshold, hq]
  · intro query search genAnswer elapsed_ms
    simp [process_query, resolveMaxChunks, resolveThreshold]

/-- Witness for C6 at concrete settings, parameter values 7 and 1/2, and
a concrete query. -/
theorem process_query_or_defaulting_witness :
    resolveMaxChunks none ⟨5, 7 / 10⟩ = (5 : Int) ∧
    resolveMaxChunks (some 7) ⟨5, 7 / 10⟩ = 7 ∧
    resolveThreshold (some (1 / 2)) ⟨5, 7 / 10⟩ = 1 / 2 ∧
    process_query "q" (some 0) (some 0) ⟨5, 7 / 10⟩ (fun _ _ => [])
        (fun _ _ => "a") 3 =
      process_query "q" none none ⟨5, 7 / 10⟩ (fun _ _ => [])
        (fun _ _ => "a") 3 :=
  ⟨(process_query_or_defaulting _).1.1,
    (process_query_or_defaulting _).1.2.2 7 (by norm_num),
    (process_query_or_defaulting _).2.1.2.2 (1 / 2) (by norm_num),
    (process_query_or_defaulting _).2.2 "q" (fun _ _ => [])
      (fun _ _ => "a") 3⟩

/-- Claim C7: an empty query string is rejected by the request validation
at the boundary with a bad-request signal, so process_query does not run
and the Embedding Generator is invoked zero times: the orchestrator never
embeds an empty string. -/
theorem empty_query_rejected (max_chunks : Option Int)
    (similarity_threshold : Option ℚ) (settings : Settings)
    (search : Int → ℚ → List Match) (genAnswer : String → String → String)
    (elapsed_ms : ℚ) :
    handleQuery "" max_chunks similarity_threshold settings search genAnswer
      elapsed_ms = (.validationError, 0) := by
  rw [handleQuery, if_neg]
  simp [validQueryRequest]

theorem generate_answer_ok_body (body : ResponseBody) :
    generate_answer (.ok body) =
      (match firstTextBlock body with
       | some t => .ok t.trim
       | none => .error .malformedResponseError) := by
  simp only [generate_answer, firstTextBlock]
  cases hc : body.content with
  | none => rfl
  | some blocks =>
    cases blocks with
    | nil => rfl
    | cons block rest =>
      cases ht : block.text with
      | none => rfl
      | some t => rfl

/-- Claim C8: generate_answer fails with MalformedResponseError whenever
the response lacks a first text content block, fails with
ModelInvocationError on upstream invocation failure, and succeeds on any
response carrying a first text block even when token-usage data is
absent. -/
theorem generate_answer_taxonomy (r : InvokeResult) :
    (r = .clientError → generate_answer r = .error .modelInvocationError) ∧
    (∀ body, r = .ok body → firstTextBlock body = none →
      generate_answer r = .error .malformedResponseError) ∧
    (∀ body t, r = .ok body → firstTextBlock body = some t →
      generate_answer r = .ok t.trim) ∧
    (∀ (block : ContentBlock) (rest : List ContentBlock)
        (stop_reason : Option String) (t : String), block.text = some t →
      generate_answer (.ok ⟨some (block :: rest), stop_reason, none⟩) =
        .ok t.trim) := by
  refine ⟨?_, ?_, ?_, ?_⟩
  · rintro rfl; rfl
  · rintro body rfl hnone
    rw [generate_answer_ok_body, hnone]
  · rintro body t rfl hsome
    rw [generate_answer_ok_body, hsome]
  · intro block rest stop_reason t ht
    rw [generate_answer_ok_body]
    simp [firstTextBlock, ht]

/-- Witness for C8 on an upstream failure, a response with an empty
content list, and a well-formed response without usage data. -/
theorem generate_answer_taxonomy_witness :
    generate_answer .clientError = .error .modelInvocationError ∧
    generate_answer (.ok ⟨some [], none, none⟩) =
      .error .malformedResponseError ∧
    generate_answer (.ok ⟨some [⟨some " hi "⟩], some "end_turn", none⟩) =
      .ok (String.trim " hi ") :=
  ⟨(generate_answer_taxonomy .clientError).1 rfl,
    (generate_answer_taxonomy (.ok ⟨some [], none, none⟩)).2.1 _ rfl rfl,
    (generate_answer_taxonomy
      (.ok ⟨some [⟨some " hi "⟩], some "end_turn", none⟩)).2.2.2
      ⟨some " hi "⟩ [] (some "end_turn") " hi " rfl⟩

end S3VectorsRAG
